import Mathlib

/-!
Verification of the `cehrentr/aws` utilities: a shallow embedding of
`aws_s3.py`, `aws_cognito_users.py` and `aws_dynamodb.py` in Lean 4,
with theorems settling the specification claims about them.

Python strings are modelled by `String`, Python `None`-able parameters by
`Option`, the process environment by a partial map `Env`, raised
exceptions by `Except`, and the local filesystem touched by the S3
downloader by an explicit `FileSystem` state record.
-/

namespace AwsRepo

/-! ### Python string primitives used by the scripts -/

/-- Model of CPython `s.startswith(p)` for `str` arguments: `p` is a prefix
of `s`, compared code-point by code-point (case-sensitive, no folding). -/
def py_startswith (s p : String) : Bool :=
  p.data.isPrefixOf s.data

/-- Fuel-indexed worker for `py_replace`; the fuel is the length of the
scanned list, which bounds the number of scanning steps for a non-empty
pattern (the scripts only ever replace non-empty patterns). -/
def replaceAllAux : Nat → List Char → List Char → List Char → List Char
  | 0, s, _, _ => s
  | _ + 1, [], _, _ => []
  | fuel + 1, c :: rest, old, new =>
    if old.isPrefixOf (c :: rest) then
      new ++ replaceAllAux fuel ((c :: rest).drop old.length) old new
    else
      c :: replaceAllAux fuel rest old new

/-- Model of CPython `s.replace(old, new)` for a non-empty `old`: replaces
every non-overlapping occurrence of `old` in `s` by `new`, scanning left to
right. -/
def py_replace (s old new : String) : String :=
  ⟨replaceAllAux s.data.length s.data old.data new.data⟩

/-! ### Environment and credential resolution
(`aws_s3.py` lines 59-81, `aws_cognito_users.py` lines 34-51 — the two
`_get_aws_credentials` bodies are textually identical). -/

/-- The process environment: a partial map from variable names to values.
A variable can be absent (`none`) or set, possibly to the empty string. -/
def Env : Type := String → Option String

/-- Model of CPython `os.getenv(name, default)`: the variable's value when
it is set (even when set to the empty string), the default otherwise. -/
def getenv (env : Env) (name : String) (dflt : String) : String :=
  (env name).getD dflt

/-- The credentials record returned by `_get_aws_credentials`
(keys `aws_access_key_id`, `aws_secret_access_key`, `aws_region_name`). -/
structure AwsCredentials where
  aws_access_key_id : String
  aws_secret_access_key : String
  aws_region_name : String
deriving Repr, DecidableEq

/-- The `AwsConfigException` raised by `_get_aws_credentials`, carrying its
message string. -/
inductive AwsConfigException where
  | mk (msg : String)
deriving Repr, DecidableEq

/-- Line 66 of `aws_s3.py` (= line 36 of `aws_cognito_users.py`):
`os.getenv('AWS_DEFAULT_REGION', os.getenv('AWS_REGION', ''))`. -/
def resolveRegion (env : Env) : String :=
  getenv env "AWS_DEFAULT_REGION" (getenv env "AWS_REGION" "")

/-- `_get_aws_credentials` (lines 59-81 of `aws_s3.py`): reads region,
access key and secret key from the environment; a falsy (empty) value makes
the corresponding `AwsConfigException` raise, checked in that order;
otherwise the three values are returned as a record. -/
def get_aws_credentials (env : Env) : Except AwsConfigException AwsCredentials :=
  let aws_region_name := resolveRegion env
  let aws_access_key_id := getenv env "AWS_ACCESS_KEY_ID_DEV" ""
  let aws_secret_access_key := getenv env "AWS_SECRET_ACCESS_KEY_DEV" ""
  if aws_region_name = "" then
    .error (.mk "Environment variable [AWS_DEFAULT_REGION | AWS_REGION] not set")
  else if aws_access_key_id = "" then
    .error (.mk "Environment variable AWS_ACCESS_KEY_ID_DEV not set")
  else if aws_secret_access_key = "" then
    .error (.mk "Environment variable AWS_SECRET_ACCESS_KEY_DEV not set")
  else
    .ok ⟨aws_access_key_id, aws_secret_access_key, aws_region_name⟩

/-! ### S3 bucket listing and download (`aws_s3.py` lines 83-137) -/

/-- One object of the remote bucket enumeration
(`bucket.objects.all()` yields objects with `bucket_name` and `key`). -/
structure S3Object where
  bucket_name : String
  key : String
deriving Repr, DecidableEq

/-- One element of the `bucket_items` list built by `get_s3_bucket_list`:
the dictionary `{'bucket_name': ..., 'bucket_key': ...}`. -/
structure BucketItem where
  bucket_name : String
  bucket_key : String
deriving Repr, DecidableEq

/-- The dictionary returned by `get_s3_bucket_list`:
`{'bucket_size': ..., 'bucket_items': ...}`. -/
structure BucketListing where
  bucket_size : Nat
  bucket_items : List BucketItem
deriving Repr, DecidableEq

/-- `get_s3_bucket_list` (lines 83-106) for a `str` bucket key, over a fixed
enumeration `listing` of the bucket: first pass counts the keys matching the
prefix (`sum(1 for item in bucket if item.key.startswith(...))`), second
pass collects the matching items. -/
def get_s3_bucket_list (listing : List S3Object) (s3_bucket_key : String) : BucketListing :=
  let bucket_size := listing.countP (fun item => py_startswith item.key s3_bucket_key)
  let bucket_items :=
    (listing.filter (fun item => py_startswith item.key s3_bucket_key)).map
      (fun item => ⟨item.bucket_name, item.key⟩)
  ⟨bucket_size, bucket_items⟩

/-- The `TypeError` CPython raises for `key.startswith(None)`. -/
inductive PyError where
  | typeError (msg : String)
deriving Repr, DecidableEq

/-- `item.key.startswith(s3_bucket_key)` as evaluated at line 92/97 when the
argument flows in from the CLI and may be `None`: a `None` argument raises
`TypeError`, a `str` argument tests the prefix. -/
def py_startswith_dyn (s : String) : Option String → Except PyError Bool
  | none => .error (.typeError "startswith first arg must be str or a tuple of str, not NoneType")
  | some p => .ok (py_startswith s p)

/-- The counting pass of `get_s3_bucket_list` (line 92) with a possibly-None
bucket key: the generator stops at the first `TypeError`. -/
def count_matching (listing : List S3Object) (key : Option String) : Except PyError Nat :=
  match listing with
  | [] => .ok 0
  | item :: rest => do
    let b ← py_startswith_dyn item.key key
    let n ← count_matching rest key
    pure (if b then n + 1 else n)

/-- The collecting pass of `get_s3_bucket_list` (lines 95-101) with a
possibly-None bucket key. -/
def collect_matching (listing : List S3Object) (key : Option String) :
    Except PyError (List BucketItem) :=
  match listing with
  | [] => .ok []
  | item :: rest => do
    let b ← py_startswith_dyn item.key key
    let tail ← collect_matching rest key
    pure (if b then (⟨item.bucket_name, item.key⟩ : BucketItem) :: tail else tail)

/-- `get_s3_bucket_list` as invoked from `main` (line 157/160), where
`args.bucket_key` is passed positionally and may be `None`. -/
def get_s3_bucket_list_cli (listing : List S3Object) (key : Option String) :
    Except PyError BucketListing := do
  let bucket_size ← count_matching listing key
  let bucket_items ← collect_matching listing key
  pure ⟨bucket_size, bucket_items⟩

/-- `argparse` default for the optional `--bucket-key` flag (line 148 adds
the argument without a `default=`, so an omitted flag yields `None`). -/
def argparse_bucket_key_default : Option String := none

/-- The local filesystem state the downloader mutates: the set of existing
directories and the downloaded files (local path paired with the
`bucket/key` source it was downloaded from). -/
structure FileSystem where
  dirs : List String
  files : List (String × String)
deriving Repr, DecidableEq

/-- `os.path.exists(p)` restricted to the directories the model tracks. -/
def path_exists (fs : FileSystem) (p : String) : Bool :=
  fs.dirs.contains p

/-- `os.makedirs(p)` (line 123): records the directory as existing. -/
def makedirs (fs : FileSystem) (p : String) : FileSystem :=
  { fs with dirs := p :: fs.dirs }

/-- Line 119: `target_folder if target_folder else f'{cwd}/{s3_bucket}'` —
Python truthiness sends both `None` and the empty string to the default. -/
def resolve_target_folder (cwd s3_bucket : String) : Option String → String
  | none => cwd ++ "/" ++ s3_bucket
  | some t => if t = "" then cwd ++ "/" ++ s3_bucket else t

/-- Line 135: `'{0}/{1}'.format(target_folder, s3_bucket_key.replace('/', '_'))`. -/
def target_file_name (target_folder s3_bucket_key : String) : String :=
  target_folder ++ "/" ++ py_replace s3_bucket_key "/" "_"

/-- `_get_s3_bucket_item` (lines 128-137): downloads one object, writing the
flattened file under the target folder. -/
def get_s3_bucket_item (fs : FileSystem) (s3_bucket s3_bucket_key target_folder : String) :
    FileSystem :=
  { fs with
    files := fs.files ++ [(target_file_name target_folder s3_bucket_key,
                           s3_bucket ++ "/" ++ s3_bucket_key)] }

/-- `get_s3_bucket` (lines 108-126): lists the bucket; when at least one
item matches, resolves the target folder, creates it when missing, and
downloads each listed item in order; otherwise touches nothing. -/
def get_s3_bucket (fs : FileSystem) (cwd : String) (listing : List S3Object)
    (s3_bucket : String) (s3_bucket_key : String) (target_folder : Option String) :
    FileSystem :=
  let bucket := get_s3_bucket_list listing s3_bucket_key
  if bucket.bucket_size > 0 then
    let tf := resolve_target_folder cwd s3_bucket target_folder
    let fs1 := if path_exists fs tf then fs else makedirs fs tf
    bucket.bucket_items.foldl
      (fun acc item => get_s3_bucket_item acc item.bucket_name item.bucket_key tf) fs1
  else
    fs

/-! ### Cognito user lookup (`aws_cognito_users.py` lines 54-90) -/

/-- The mutable state an `AwsCognitoUser` instance carries that is in scope
inside `get_user_details`: the pool id and the verbosity flag. -/
structure CognitoState where
  user_pool_id : String
  verbose : Bool
deriving Repr, DecidableEq

/-- The `list_users` request issued by `get_user_details` (lines 86-89). -/
structure ListUsersCall where
  UserPoolId : String
  Filter : String
deriving Repr, DecidableEq

/-- `get_user_details(username)` (lines 80-90), observed at the level of the
request it issues: `Filter=f'username = \"{username}\"'` with the pool id
from the instance state. -/
def get_user_details_call (self : CognitoState) (username : String) : ListUsersCall :=
  ⟨self.user_pool_id, "username = \"" ++ username ++ "\""⟩

/-! ### CSV consolidator (`aws_dynamodb.py`) -/

/-- One input CSV file as `csv.DictReader` sees it: the header row
(`fieldnames`) and the data rows. -/
structure CsvFile where
  fieldnames : List String
  rows : List (List String)
deriving Repr, DecidableEq

/-- A CPython value that can appear in a `DictReader` row dictionary:
a string cell, `None` (the reader's `restval` for short rows), or the list
of overflow cells stored under the `restkey`. -/
inductive PyVal where
  | vstr (s : String)
  | vnone
  | vlist (l : List String)
deriving Repr, DecidableEq

/-- One `DictReader` row dictionary (keys are column names, or `none` for
the `restkey` entry of an over-long row), in insertion order. -/
def dict_read_row (fieldnames : List String) (row : List String) :
    List (Option String × PyVal) :=
  let base := (fieldnames.zip row).map (fun kv => ((some kv.1 : Option String), PyVal.vstr kv.2))
  if fieldnames.length < row.length then
    base ++ [((none : Option String), PyVal.vlist (row.drop fieldnames.length))]
  else
    base ++ ((fieldnames.drop row.length).map
      (fun k => ((some k : Option String), PyVal.vnone)))

/-- Iterating a `DictReader` over one file (lines 23-26): one dictionary per
data row, in row order. -/
def dictRead (f : CsvFile) : List (List (Option String × PyVal)) :=
  f.rows.map (dict_read_row f.fieldnames)

/-- Adding one element to a Python `set` modelled as a duplicate-free list:
a no-op when already present. -/
def set_add (acc : List String) (c : String) : List String :=
  if acc.contains c then acc else acc ++ [c]

/-- The accumulated `header_fields` set after the reading loop (lines
12-26): `header_fields.update(csvreader.fieldnames)` for each input file,
in file order. Note the script never applies `cleanse_header` to it. -/
def header_fields (files : List CsvFile) : List String :=
  files.foldl (fun acc f => f.fieldnames.foldl set_add acc) []

/-- `cleanse_header` (lines 15-16): strips the literal substrings
`" (S)"` and `" (N)"` from every member of a header set. The script defines
this function but never calls it. -/
def cleanse_header (header : List String) : List String :=
  (header.map (fun col => py_replace (py_replace col " (S)" "") " (N)" "")).foldl set_add []

/-- The accumulated `csv_records` list after the reading loop (lines
19-26): every row dictionary of every file, in file order then row order. -/
def csv_records (files : List CsvFile) : List (List (Option String × PyVal)) :=
  files.foldl (fun acc f => acc ++ dictRead f) []

/-- Python `rowdict.get(key, restval)` over the association-list model. -/
def dict_get (d : List (Option String × PyVal)) (k : Option String) (dflt : PyVal) : PyVal :=
  match d.find? (fun kv => kv.1 == k) with
  | some kv => kv.2
  | none => dflt

/-- `csv.DictWriter.writerow` (line 37) with the writer's defaults
(`restval=''`, `extrasaction='raise'`): raises `ValueError` when the row
dictionary holds a key outside `fieldnames`, otherwise emits one output
cell per output column, blank for missing keys. -/
def writerow (fieldnames : List String) (rowdict : List (Option String × PyVal)) :
    Except String (List PyVal) :=
  if rowdict.all (fun kv => match kv.1 with
      | some k => fieldnames.contains k
      | none => false) then
    .ok (fieldnames.map (fun k => dict_get rowdict (some k) (PyVal.vstr "")))
  else
    .error "dict contains fields not in fieldnames"

/-! ### Concrete inputs used by counterexamples and witnesses -/

/-- An environment with the primary region variable set to the empty string
and the secondary set to a region (both present). -/
def envC3 : Env := fun name =>
  if name = "AWS_DEFAULT_REGION" then some ""
  else if name = "AWS_REGION" then some "eu-west-1"
  else none

/-- An environment with both region variables set to distinct regions. -/
def envPrimary : Env := fun name =>
  if name = "AWS_DEFAULT_REGION" then some "us-east-1"
  else if name = "AWS_REGION" then some "eu-west-1"
  else none

/-- An environment with only the secondary region variable set. -/
def envSecondaryOnly : Env := fun name =>
  if name = "AWS_REGION" then some "eu-central-1"
  else none

/-- An environment with region, access key and secret key all set. -/
def envFull : Env := fun name =>
  if name = "AWS_DEFAULT_REGION" then some "us-east-1"
  else if name = "AWS_ACCESS_KEY_ID_DEV" then some "AKIA123"
  else if name = "AWS_SECRET_ACCESS_KEY_DEV" then some "secret456"
  else none

/-- The spec's CSV example: file 1 with columns `["id (S)", "name"]`. -/
def c1_file1 : CsvFile := ⟨["id (S)", "name"], [["1", "alice"]]⟩

/-- The spec's CSV example: file 2 with columns `["id (S)", "amount (N)"]`. -/
def c1_file2 : CsvFile := ⟨["id (S)", "amount (N)"], [["2", "10"]]⟩

/-- A CSV file whose single data row is longer than its header row. -/
def c10_ragged_file : CsvFile := ⟨["a"], [["1", "2"]]⟩

/-! ### Helper lemmas -/

theorem py_startswith_empty (s : String) : py_startswith s "" = true := by
  obtain ⟨l⟩ := s
  cases l <;> rfl

theorem py_startswith_iff_isPre (s p : String) :
    py_startswith s p = true ↔ p.data <+: s.data := by
  unfold py_startswith
  exact List.isPrefixOf_iff_prefix

theorem bucket_size_eq_items_length (listing : List S3Object) (p : String) :
    (get_s3_bucket_list listing p).bucket_size =
      (get_s3_bucket_list listing p).bucket_items.length := by
  simp [get_s3_bucket_list, List.countP_eq_length_filter]

theorem mem_foldl_set_add (l : List String) (acc : List String) (a : String) :
    a ∈ l.foldl set_add acc ↔ a ∈ acc ∨ a ∈ l := by
  induction l generalizing acc with
  | nil => simp
  | cons c rest ih =>
    simp only [List.foldl_cons, ih, set_add]
    by_cases h : acc.contains c
    · simp only [if_pos h]
      constructor
      · rintro (h1 | h1)
        · exact Or.inl h1
        · exact Or.inr (List.mem_cons_of_mem _ h1)
      · rintro (h1 | h1)
        · exact Or.inl h1
        · rcases List.mem_cons.mp h1 with rfl | h2
          · exact Or.inl (by simpa using h)
          · exact Or.inr h2
    · simp only [if_neg h, List.mem_append, List.mem_singleton, List.mem_cons]
      tauto

theorem mem_header_fields_aux (files : List CsvFile) (acc : List String) (a : String) :
    a ∈ files.foldl (fun acc f => f.fieldnames.foldl set_add acc) acc ↔
      a ∈ acc ∨ ∃ f ∈ files, a ∈ f.fieldnames := by
  induction files generalizing acc with
  | nil => simp
  | cons f rest ih =>
    rw [List.foldl_cons, ih, mem_foldl_set_add]
    simp only [List.mem_cons, exists_eq_or_imp]
    tauto

theorem mem_header_fields (files : List CsvFile) (a : String) :
    a ∈ header_fields files ↔ ∃ f ∈ files, a ∈ f.fieldnames := by
  rw [header_fields, mem_header_fields_aux]
  simp

theorem csv_records_aux (files : List CsvFile) (acc : List (List (Option String × PyVal))) :
    files.foldl (fun acc f => acc ++ dictRead f) acc = acc ++ (files.map dictRead).flatten := by
  induction files generalizing acc with
  | nil => simp
  | cons f rest ih => simp [ih]

theorem csv_records_eq_flatten (files : List CsvFile) :
    csv_records files = (files.map dictRead).flatten := by
  rw [csv_records, csv_records_aux]
  rfl

/-! ### Claims -/

/-- C1 (code bug): on the spec's example inputs the script writes the raw
header union `{"id (S)", "name", "amount (N)"}` — `cleanse_header` is
defined at lines 15-16 of `aws_dynamodb.py` but never called — not the
stripped set `{"id", "name", "amount"}` the claim states; applying the
script's own dead `cleanse_header` function to that union yields exactly
the claimed set. -/
theorem c1_header_union_not_cleansed :
    header_fields [c1_file1, c1_file2] = ["id (S)", "name", "amount (N)"] ∧
    "id" ∉ header_fields [c1_file1, c1_file2] ∧
    cleanse_header (header_fields [c1_file1, c1_file2]) = ["id", "name", "amount"] :=
  ⟨by decide, by decide, by decide⟩

/-- C2 (code bug): the `--bucket-key` argument is added without a default
(line 148 of `aws_s3.py`), so omitting the flag makes `args.bucket_key` be
`None`; on any bucket holding at least one object the listing then raises
`TypeError` from `item.key.startswith(None)` (line 92) instead of behaving
like the empty prefix, which succeeds and keeps every object. -/
theorem c2_omitted_bucket_key_raises :
    get_s3_bucket_list_cli [⟨"mybucket", "a.txt"⟩] argparse_bucket_key_default =
      .error (.typeError "startswith first arg must be str or a tuple of str, not NoneType") ∧
    get_s3_bucket_list_cli [⟨"mybucket", "a.txt"⟩] (some "") =
      .ok ⟨1, [⟨"mybucket", "a.txt"⟩]⟩ :=
  ⟨rfl, rfl⟩

/-- C3 counterexample: with `AWS_DEFAULT_REGION` set to the empty string
and `AWS_REGION` set to `eu-west-1`, `os.getenv('AWS_DEFAULT_REGION', ...)`
returns the empty string (the fallback fires only on absence, not
emptiness), so the secondary's value is not used and credential resolution
raises, contradicting the claim's "absent or empty" wording. -/
theorem c3_empty_primary_masks_secondary :
    envC3 "AWS_DEFAULT_REGION" = some "" ∧
    envC3 "AWS_REGION" = some "eu-west-1" ∧
    resolveRegion envC3 = "" ∧
    resolveRegion envC3 ≠ "eu-west-1" ∧
    get_aws_credentials envC3 =
      .error (.mk "Environment variable [AWS_DEFAULT_REGION | AWS_REGION] not set") :=
  ⟨by decide, by decide, by decide, by decide, rfl⟩

/-- C3 (amended): region resolution uses the primary variable's value
whenever the primary is set — even when both are set, and even when the
primary is set to the empty string (which then triggers the configuration
error) — and uses the secondary's value only when the primary is absent. -/
theorem c3_region_preference (env : Env) (r : String) :
    (env "AWS_DEFAULT_REGION" = some r → resolveRegion env = r) ∧
    (env "AWS_DEFAULT_REGION" = none → env "AWS_REGION" = some r →
      resolveRegion env = r) := by
  constructor
  · intro h
    simp [resolveRegion, getenv, h]
  · intro h1 h2
    simp [resolveRegion, getenv, h1, h2]

/-- C3 witness: the amended preference evaluated on concrete environments
(primary wins when both are set; secondary is used when primary is absent). -/
theorem c3_region_preference_witness :
    resolveRegion envPrimary = "us-east-1" ∧
    resolveRegion envSecondaryOnly = "eu-central-1" :=
  ⟨(c3_region_preference envPrimary "us-east-1").1 (by decide),
   (c3_region_preference envSecondaryOnly "eu-central-1").2 (by decide) (by decide)⟩

/-- C5: for every bucket listing and prefix, the returned `bucket_size`
equals the length of the returned `bucket_items` list. -/
theorem c5_bucket_size_matches_items (listing : List S3Object) (p : String) :
    (get_s3_bucket_list listing p).bucket_size =
      (get_s3_bucket_list listing p).bucket_items.length :=
  bucket_size_eq_items_length listing p

/-- C9: the filter expression issued by `get_user_details` is a pure
function of the username: it is the same for any two instance states, and
it is literally `username = "<username>"`. -/
theorem c9_filter_pure (s1 s2 : CognitoState) (u : String) :
    (get_user_details_call s1 u).Filter = (get_user_details_call s2 u).Filter ∧
    (get_user_details_call s1 u).Filter = "username = \"" ++ u ++ "\"" :=
  ⟨rfl, rfl⟩

/-- C4: with the empty prefix the lister returns every object of the
enumeration; with any prefix it returns exactly the items built from the
objects whose key starts with that prefix, the comparison being exact
code-point prefix matching (case-sensitive). -/
theorem c4_prefix_filter (listing : List S3Object) (p : String) (it : BucketItem) :
    (get_s3_bucket_list listing "").bucket_items =
      listing.map (fun obj => ⟨obj.bucket_name, obj.key⟩) ∧
    (it ∈ (get_s3_bucket_list listing p).bucket_items ↔
      ∃ obj, obj ∈ listing ∧ it = ⟨obj.bucket_name, obj.key⟩ ∧ p.data <+: obj.key.data) := by
  constructor
  · simp [get_s3_bucket_list, py_startswith_empty]
  · simp only [get_s3_bucket_list, List.mem_map, List.mem_filter]
    constructor
    · rintro ⟨obj, ⟨hmem, hpre⟩, rfl⟩
      exact ⟨obj, hmem, rfl, (py_startswith_iff_isPre obj.key p).mp hpre⟩
    · rintro ⟨obj, hmem, rfl, hpre⟩
      exact ⟨obj, ⟨hmem, (py_startswith_iff_isPre obj.key p).mpr hpre⟩, rfl⟩

/-- C4 witness: on a concrete two-object listing with prefix `"a"`, the
matching item is kept (via the characterisation) and the full listing is
returned for the empty prefix. -/
theorem c4_prefix_filter_witness :
    (⟨"b", "ab.txt"⟩ : BucketItem) ∈
      (get_s3_bucket_list [⟨"b", "ab.txt"⟩, ⟨"b", "zz.txt"⟩] "a").bucket_items ∧
    (get_s3_bucket_list [⟨"b", "ab.txt"⟩, ⟨"b", "zz.txt"⟩] "").bucket_items =
      [⟨"b", "ab.txt"⟩, ⟨"b", "zz.txt"⟩] :=
  ⟨(c4_prefix_filter [⟨"b", "ab.txt"⟩, ⟨"b", "zz.txt"⟩] "a" ⟨"b", "ab.txt"⟩).2.mpr
      ⟨⟨"b", "ab.txt"⟩, by decide, rfl, ⟨"b.txt".data, by decide⟩⟩,
   by simpa using (c4_prefix_filter [⟨"b", "ab.txt"⟩, ⟨"b", "zz.txt"⟩] "" ⟨"b", "ab.txt"⟩).1⟩

/-- C6: when the listing for the requested bucket and prefix matches zero
items, `get_s3_bucket` leaves the filesystem untouched: no directory is
created and no file is written. -/
theorem c6_no_items_no_mutation (fs : FileSystem) (cwd : String) (listing : List S3Object)
    (s3_bucket s3_bucket_key : String) (target_folder : Option String)
    (h : (get_s3_bucket_list listing s3_bucket_key).bucket_size = 0) :
    get_s3_bucket fs cwd listing s3_bucket s3_bucket_key target_folder = fs := by
  simp [get_s3_bucket, h]

/-- C6 witness: a one-object bucket and a prefix matching nothing leave the
empty filesystem unchanged. -/
theorem c6_no_items_no_mutation_witness :
    get_s3_bucket ⟨[], []⟩ "/home/user" [⟨"b", "data/x.txt"⟩] "b" "logs/" none = ⟨[], []⟩ :=
  c6_no_items_no_mutation ⟨[], []⟩ "/home/user" [⟨"b", "data/x.txt"⟩] "b" "logs/" none
    (by decide)

/-- C7: when the listing yields a single item with key `k` and no target
folder is given, the downloader writes exactly one file, named by replacing
every `/` in `k` with `_`, directly under the default folder
`<cwd>/<bucket>`. -/
theorem c7_flattened_download_path (fs : FileSystem) (cwd : String) (listing : List S3Object)
    (s3_bucket s3_bucket_key bn k : String)
    (h : (get_s3_bucket_list listing s3_bucket_key).bucket_items = [⟨bn, k⟩]) :
    (get_s3_bucket fs cwd listing s3_bucket s3_bucket_key none).files =
      fs.files ++ [((cwd ++ "/" ++ s3_bucket) ++ "/" ++ py_replace k "/" "_",
                    bn ++ "/" ++ k)] := by
  have hsize : (get_s3_bucket_list listing s3_bucket_key).bucket_size = 1 := by
    rw [bucket_size_eq_items_length, h]
    rfl
  by_cases hp : path_exists fs (cwd ++ "/" ++ s3_bucket) <;>
    simp [get_s3_bucket, hsize, h, hp, makedirs, get_s3_bucket_item, target_file_name,
      resolve_target_folder]

/-- C7 witness: downloading the single object `a/b/c.txt` of bucket
`mybucket` with no target folder writes
`/home/user/mybucket/a_b_c.txt`. -/
theorem c7_flattened_download_path_witness :
    (get_s3_bucket ⟨[], []⟩ "/home/user" [⟨"mybucket", "a/b/c.txt"⟩] "mybucket" "" none).files =
      [("/home/user/mybucket/a_b_c.txt", "mybucket/a/b/c.txt")] := by
  have h := c7_flattened_download_path ⟨[], []⟩ "/home/user" [⟨"mybucket", "a/b/c.txt"⟩]
    "mybucket" "" "mybucket" "a/b/c.txt" (by decide)
  rw [h]
  decide

/-- C8: `_get_aws_credentials` checks region, then access key, then secret
key; whichever is empty first yields a distinct configuration error whose
message names that variable, and no credentials record is returned; when
all three are non-empty the record holds exactly the three values. -/
theorem c8_credentials_check_order (env : Env) :
    (resolveRegion env = "" →
      get_aws_credentials env =
        .error (.mk "Environment variable [AWS_DEFAULT_REGION | AWS_REGION] not set")) ∧
    (resolveRegion env ≠ "" → getenv env "AWS_ACCESS_KEY_ID_DEV" "" = "" →
      get_aws_credentials env =
        .error (.mk "Environment variable AWS_ACCESS_KEY_ID_DEV not set")) ∧
    (resolveRegion env ≠ "" → getenv env "AWS_ACCESS_KEY_ID_DEV" "" ≠ "" →
      getenv env "AWS_SECRET_ACCESS_KEY_DEV" "" = "" →
      get_aws_credentials env =
        .error (.mk "Environment variable AWS_SECRET_ACCESS_KEY_DEV not set")) ∧
    (resolveRegion env ≠ "" → getenv env "AWS_ACCESS_KEY_ID_DEV" "" ≠ "" →
      getenv env "AWS_SECRET_ACCESS_KEY_DEV" "" ≠ "" →
      get_aws_credentials env =
        .ok ⟨getenv env "AWS_ACCESS_KEY_ID_DEV" "",
             getenv env "AWS_SECRET_ACCESS_KEY_DEV" "", resolveRegion env⟩) ∧
    (AwsConfigException.mk "Environment variable [AWS_DEFAULT_REGION | AWS_REGION] not set" ≠
        .mk "Environment variable AWS_ACCESS_KEY_ID_DEV not set" ∧
      AwsConfigException.mk "Environment variable [AWS_DEFAULT_REGION | AWS_REGION] not set" ≠
        .mk "Environment variable AWS_SECRET_ACCESS_KEY_DEV not set" ∧
      AwsConfigException.mk "Environment variable AWS_ACCESS_KEY_ID_DEV not set" ≠
        .mk "Environment variable AWS_SECRET_ACCESS_KEY_DEV not set") := by
  refine ⟨?_, ?_, ?_, ?_, by decide, by decide, by decide⟩
  · intro h1
    simp [get_aws_credentials, h1]
  · intro h1 h2
    simp [get_aws_credentials, h1, h2]
  · intro h1 h2 h3
    simp [get_aws_credentials, h1, h2, h3]
  · intro h1 h2 h3
    simp [get_aws_credentials, h1, h2, h3]

/-- C8 witness: on an environment with all three variables set, resolution
returns exactly the three values. -/
theorem c8_credentials_check_order_witness :
    get_aws_credentials envFull = .ok ⟨"AKIA123", "secret456", "us-east-1"⟩ := by
  have h := (c8_credentials_check_order envFull).2.2.2.1 (by decide) (by decide) (by decide)
  rw [h]
  rfl

/-- C10 counterexample: a data row longer than its file's header makes the
`DictReader` store the overflow cells under its `restkey` (`None`), a key
outside every header, so `DictWriter.writerow` raises `ValueError` for that
row — the claim's "no row write can fail" does not hold for every input. -/
theorem c10_ragged_row_write_fails :
    csv_records [c10_ragged_file] =
      [[((some "a" : Option String), PyVal.vstr "1"),
        ((none : Option String), PyVal.vlist ["2"])]] ∧
    writerow (header_fields [c10_ragged_file])
      [((some "a" : Option String), PyVal.vstr "1"),
       ((none : Option String), PyVal.vlist ["2"])] =
      .error "dict contains fields not in fieldnames" :=
  ⟨rfl, rfl⟩

/-- C10 (amended): for inputs in which no data row is longer than its
file's header row, the consolidator emits exactly one output row per input
row, in file order and, within each file, in row order; and every such
row's keys lie in the unioned header, so no row write fails. -/
theorem c10_rows_preserved (files : List CsvFile)
    (hlen : ∀ f ∈ files, ∀ row ∈ f.rows, row.length ≤ f.fieldnames.length) :
    csv_records files = (files.map dictRead).flatten ∧
    (csv_records files).length = (files.map (fun f => f.rows.length)).sum ∧
    ∀ r ∈ csv_records files, ∃ out, writerow (header_fields files) r = .ok out := by
  refine ⟨csv_records_eq_flatten files, ?_, ?_⟩
  · rw [csv_records_eq_flatten, List.length_flatten, List.map_map]
    have hmap : List.map (List.length ∘ dictRead) files =
        List.map (fun f => f.rows.length) files := by
      apply List.map_congr_left
      intro f _
      simp [dictRead]
    rw [hmap]
  · intro r hr
    rw [csv_records_eq_flatten, List.mem_flatten] at hr
    obtain ⟨l, hl, hrl⟩ := hr
    rw [List.mem_map] at hl
    obtain ⟨f, hf, rfl⟩ := hl
    rw [dictRead, List.mem_map] at hrl
    obtain ⟨row, hrow, rfl⟩ := hrl
    have hle : ¬ f.fieldnames.length < row.length := by
      exact Nat.not_lt.mpr (hlen f hf row hrow)
    have hall : (dict_read_row f.fieldnames row).all (fun kv => match kv.1 with
        | some k => (header_fields files).contains k
        | none => false) = true := by
      rw [List.all_eq_true]
      intro kv hkv
      rw [dict_read_row] at hkv
      simp only [hle, if_false, List.mem_append, List.mem_map] at hkv
      rcases hkv with ⟨ab, hab, rfl⟩ | ⟨k, hk, rfl⟩
      · obtain ⟨ha, _⟩ := List.of_mem_zip hab
        simp only
        rw [List.contains_iff_exists_mem_beq]
        exact ⟨ab.1, (mem_header_fields files ab.1).mpr ⟨f, hf, ha⟩, by simp⟩
      · simp only
        rw [List.contains_iff_exists_mem_beq]
        exact ⟨k, (mem_header_fields files k).mpr ⟨f, hf, List.mem_of_mem_drop hk⟩, by simp⟩
    exact ⟨_, by unfold writerow; rw [if_pos hall]⟩

/-- C10 witness: on the spec's two example files (one data row each, no
ragged rows) the consolidator emits two rows and the first row's write
succeeds against the unioned header. -/
theorem c10_rows_preserved_witness :
    (csv_records [c1_file1, c1_file2]).length = 2 ∧
    (∃ out, writerow (header_fields [c1_file1, c1_file2])
      (dict_read_row c1_file1.fieldnames ["1", "alice"]) = .ok out) := by
  obtain ⟨_, h2, h3⟩ := c10_rows_preserved [c1_file1, c1_file2] (by decide)
  refine ⟨by rw [h2]; rfl, ?_⟩
  exact h3 (dict_read_row c1_file1.fieldnames ["1", "alice"]) (by decide)

end AwsRepo
